import Mathlib

/-!
Verification development for the AirPerformancev3 refinement workflow.

The repository implements a 5-step statement-refinement workflow split between
a React screen (`RefinementScreen`, client-side step pointer and artifacts),
Express routes (`server/routes.ts`, persisting a `refinement_sessions` row),
and an OpenAI wrapper module (`gpt5Text`, `generateAIFeedback`,
`generateAskBackQuestions`, `regenerateStatement`, `enhancedRegenerateStatement`).

This file gives a shallow embedding of that logic:

* `Json`/`jsonParse` model the values produced by `JSON.parse` on generation
  output (integer-precision numbers, the common escape sequences; enough to
  evaluate the concrete payloads used in the theorems below).
* The generation layer is embedded as pure functions over an explicit oracle
  `GenRequest → ApiOutcome` standing for the external model call: `.failure`
  is a thrown transport/timeout error, `.output text` a reply whose extracted
  text is `text`.
* The Express route handlers become pure state transformers over
  `ServerState` (the statement row and the optional session row they touch).
* The React screen becomes `ClientState` with a step relation `ClientStep`
  whose constructors are the event handlers (`handleNext` dispatch targets,
  mutation `onSuccess` callbacks, the Refine Again button), guarded by the
  conditions under which the corresponding UI control can fire.
-/

/-- Model of the JavaScript values produced by `JSON.parse` (integer-precision
numbers; object fields in textual order). -/
inductive Json where
  | null : Json
  | bool (b : Bool) : Json
  | num (n : Int) : Json
  | str (s : String) : Json
  | arr (items : List Json) : Json
  | obj (fields : List (String × Json)) : Json

/-- JavaScript property access `j.key`: `none` models `undefined`. -/
def Json.getField : Json → String → Option Json
  | .obj fields, key => fields.lookup key
  | _, _ => none

def jsonWs (c : Char) : Bool :=
  c = ' ' || c = '\n' || c = '\t' || c = '\r'

/-- Drop leading JSON whitespace. -/
def chompSpace (cs : List Char) : List Char :=
  match cs with
  | [] => []
  | c :: rest => bif jsonWs c then chompSpace rest else cs

/-- Decode one escape character of a JSON string literal (the common JSON
escapes). -/
def escCharOf (c : Char) : Option Char :=
  if c = 'n' then some '\n'
  else if c = 't' then some '\t'
  else if c = 'r' then some '\r'
  else if c = '"' || c = '\\' || c = '/' then some c
  else none

/-- Scan a quoted string body (after the opening quote), accumulator style. -/
def scanQuoted (acc : List Char) : List Char → Option (List Char × List Char)
  | [] => none
  | '"' :: rest => some (acc.reverse, rest)
  | '\\' :: c :: rest => (escCharOf c).bind fun e => scanQuoted (e :: acc) rest
  | c :: rest => scanQuoted (c :: acc) rest

/-- Split off a maximal run of decimal digits, accumulator style. -/
def spanDigits (acc : List Char) : List Char → List Char × List Char
  | [] => (acc.reverse, [])
  | c :: rest => bif c.isDigit then spanDigits (c :: acc) rest else (acc.reverse, c :: rest)

def decValue (ds : List Char) : Nat :=
  ds.foldl (fun n c => 10 * n + (c.toNat - 48)) 0

def numParse (cs : List Char) : Option (Json × List Char) :=
  match cs with
  | '-' :: rest =>
    match spanDigits [] rest with
    | ([], _) => none
    | (ds, rem) => some (Json.num (-(decValue ds : Int)), rem)
  | _ =>
    match spanDigits [] cs with
    | ([], _) => none
    | (ds, rem) => some (Json.num (decValue ds), rem)

mutual

def jvalParse (fuel : Nat) (cs : List Char) : Option (Json × List Char) :=
  match fuel, chompSpace cs with
  | 0, _ => none
  | _, [] => none
  | fuel + 1, c :: rest =>
    if c = '"' then
      (scanQuoted [] rest).map fun p => (Json.str (String.mk p.1), p.2)
    else if c = '[' then
      match chompSpace rest with
      | ']' :: rem => some (Json.arr [], rem)
      | more => (jarrParse fuel more).map fun p => (Json.arr p.1, p.2)
    else if c = '\x7b' then
      match chompSpace rest with
      | '\x7d' :: rem => some (Json.obj [], rem)
      | more => (jobjParse fuel more).map fun p => (Json.obj p.1, p.2)
    else
      match c :: rest with
      | 't' :: 'r' :: 'u' :: 'e' :: rem => some (Json.bool true, rem)
      | 'f' :: 'a' :: 'l' :: 's' :: 'e' :: rem => some (Json.bool false, rem)
      | 'n' :: 'u' :: 'l' :: 'l' :: rem => some (Json.null, rem)
      | other => numParse other

def jarrParse (fuel : Nat) (cs : List Char) : Option (List Json × List Char) :=
  match fuel with
  | 0 => none
  | fuel + 1 =>
    (jvalParse fuel cs).bind fun p =>
      match chompSpace p.2 with
      | ',' :: more => (jarrParse fuel more).map fun q => (p.1 :: q.1, q.2)
      | ']' :: more => some ([p.1], more)
      | _ => none

def jobjParse (fuel : Nat) (cs : List Char) : Option (List (String × Json) × List Char) :=
  match fuel with
  | 0 => none
  | fuel + 1 =>
    match chompSpace cs with
    | '"' :: rest =>
      (scanQuoted [] rest).bind fun kp =>
        match chompSpace kp.2 with
        | ':' :: afterColon =>
          (jvalParse fuel afterColon).bind fun vp =>
            match chompSpace vp.2 with
            | ',' :: more =>
              (jobjParse fuel more).map fun q => ((String.mk kp.1, vp.1) :: q.1, q.2)
            | '\x7d' :: more => some ([(String.mk kp.1, vp.1)], more)
            | _ => none
        | _ => none
    | _ => none

end

/-- Model of `JSON.parse`: `none` models the thrown `SyntaxError`. -/
def jsonParse (s : String) : Option Json :=
  match jvalParse (2 * s.length + 8) s.data with
  | some (v, rem) => if chompSpace rem = [] then some v else none
  | none => none

def jsonEscChar (c : Char) : String :=
  if c = '"' then "\\\""
  else if c = '\\' then "\\\\"
  else if c = '\n' then "\\n"
  else if c = '\t' then "\\t"
  else if c = '\r' then "\\r"
  else String.mk [c]

def jsonEscape (s : String) : String :=
  s.data.foldl (fun acc c => acc ++ jsonEscChar c) ""

mutual

/-- Model of `JSON.stringify` (compact rendering; the source passes a pretty
printing width, which only changes whitespace). -/
def Json.stringify : Json → String
  | .null => "null"
  | .bool b => if b then "true" else "false"
  | .num n => toString n
  | .str s => "\"" ++ jsonEscape s ++ "\""
  | .arr xs => "[" ++ stringifyList xs ++ "]"
  | .obj fs => "\x7b" ++ stringifyFields fs ++ "\x7d"

def stringifyList : List Json → String
  | [] => ""
  | [x] => Json.stringify x
  | x :: xs => Json.stringify x ++ "," ++ stringifyList xs

def stringifyFields : List (String × Json) → String
  | [] => ""
  | [(k, v)] => "\"" ++ jsonEscape k ++ "\":" ++ Json.stringify v
  | (k, v) :: fs =>
    "\"" ++ jsonEscape k ++ "\":" ++ Json.stringify v ++ "," ++ stringifyFields fs

end

/-- Substring test on character lists (`needle` occurs inside the haystack). -/
def listHasSub (needle : List Char) : List Char → Bool
  | [] => needle.isEmpty
  | c :: rest => needle.isPrefixOf (c :: rest) || listHasSub needle rest

/-- Substring test on strings: `hasSubstr hay needle` holds when `needle`
occurs inside `hay`. -/
def hasSubstr (hay needle : String) : Bool :=
  listHasSub needle.data hay.data

def isWsChar (c : Char) : Bool :=
  c = ' ' || c = '\t' || c = '\n' || c = '\r'

def dropLeadingWs : List Char → List Char
  | [] => []
  | c :: cs => if isWsChar c then dropLeadingWs cs else c :: cs

/-- Model of the JavaScript `trim()`: strip leading and trailing whitespace
(the common whitespace characters). -/
def strTrim (s : String) : String :=
  String.mk ((dropLeadingWs (dropLeadingWs s.data).reverse).reverse)

theorem jsonParse_object_demo :
    jsonParse "\x7b\"score\": 8, \"improvements\": []\x7d" =
      some (.obj [("score", .num 8), ("improvements", .arr [])]) := by
  rfl

/-! ## Generation layer

The OpenAI wrapper module (the file exporting `gpt5Text`, `generateAIFeedback`,
`generateAskBackQuestions`, `enhancedRegenerateStatement` and
`testGPT5Connection`, which is the module `server/routes.ts` imports from
`./openai`). A model call is an oracle `GenRequest → ApiOutcome`; `GenRequest`
records the `instructions` (system guidance) and user `prompt` of the call
(the token budget and JSON-schema payload, which never influence the control
flow being verified, are elided). -/

/-- Outcome of one Responses-API call as observed by `gpt5Text`: either the
awaited call throws (`failure`: timeout or transport error) or it returns a
response whose extracted text is `text`. -/
inductive ApiOutcome where
  | failure : ApiOutcome
  | output (text : String) : ApiOutcome

/-- Typed refinement of the errors thrown by the generation layer; the source
wraps them all in `Error("Failed to ...")` messages. -/
inductive GenError where
  | transport : GenError
  | emptyOutput : GenError
  | parseFailed : GenError
deriving Repr, DecidableEq

/-- Request payload of one generation call. -/
structure GenRequest where
  prompt : String
  instructions : String

/-- The `gpt5Text` helper: rethrows a failed call, throws
`Empty output from GPT-5` when the extracted text is blank, and otherwise
returns `text.trim()`. -/
def gpt5Text : ApiOutcome → Except GenError String
  | .failure => .error .transport
  | .output t => if strTrim t = "" then .error .emptyOutput else .ok (strTrim t)

/-- Prompt of `generateAIFeedback` (the generic scoring prompt actually sent;
fixed text around the statement under analysis). -/
def feedbackPrompt (statement : String) : String :=
  "Analyze this Air Force performance statement and provide detailed feedback. Score it from 0-10 and identify strengths and areas for improvement. Respond with JSON in this format:\n\n\x7b\n  \"score\": number,\n  \"strengths\": [\"strength1\", \"strength2\"],\n  \"improvements\": [\"improvement1\", \"improvement2\"],\n  \"characterCount\": number,\n  \"hasQuantitativeData\": boolean,\n  \"followsAirStructure\": boolean\n\x7d\n\nStatement to analyze: \"" ++ statement ++ "\""

def feedbackInstructions : String :=
  "You are an Air Force performance evaluation expert. Analyze statements based on Air University standards, quantitative impact, professional language, and ACTION--IMPACT--RESULT structure."

def feedbackRequest (statement : String) : GenRequest :=
  { prompt := feedbackPrompt statement, instructions := feedbackInstructions }

/-- `generateAIFeedback(statement)`: one `gpt5Text` call followed by
`JSON.parse(content)`; any thrown error is rethrown as a failure. -/
def generateAIFeedback (oracle : GenRequest → ApiOutcome) (statement : String) :
    Except GenError Json :=
  match gpt5Text (oracle (feedbackRequest statement)) with
  | .error e => .error e
  | .ok content =>
    match jsonParse content with
    | some v => .ok v
    | none => .error .parseFailed

/-- `generateAskBackQuestions(statement)`: a `gpt5Text` call (prompt and
JSON-schema payload elided: they do not affect the result handling) followed
by `JSON.parse(content)`. Note the parsed value is returned as-is: no local
check of the question-set shape is performed. -/
def generateAskBackQuestions (o : ApiOutcome) : Except GenError Json :=
  match gpt5Text o with
  | .error e => .error e
  | .ok content =>
    match jsonParse content with
    | some v => .ok v
    | none => .error .parseFailed

/-- The `questionsSchema` item constraint sent to the API (`strict: true`):
object with exactly the keys id/category/question/example, id and category
drawn from the fixed enum. -/
def questionItemOk : Json → Bool
  | .obj fields =>
    (fields.all fun p =>
      p.1 = "id" || p.1 = "category" || p.1 = "question" || p.1 = "example") &&
    (match fields.lookup "id" with
     | some (.str s) => s = "quantitative" || s = "leadership" || s = "strategic"
     | _ => false) &&
    (match fields.lookup "category" with
     | some (.str s) => s = "quantitative" || s = "leadership" || s = "strategic"
     | _ => false) &&
    (match fields.lookup "question" with
     | some (.str _) => true
     | _ => false) &&
    (match fields.lookup "example" with
     | some (.str _) => true
     | _ => false)
  | _ => false

/-- The `questionsSchema` object constraint sent to the API: exactly the
`questions` key, holding exactly 3 items (minItems = maxItems = 3), each
conforming to `questionItemOk`. -/
def questionsSchemaOk : Json → Bool
  | .obj fields =>
    (fields.all fun p => p.1 = "questions") &&
    (match fields.lookup "questions" with
     | some (.arr items) => items.length = 3 && items.all questionItemOk
     | _ => false)
  | _ => false

/-- The chat-completions `regenerateStatement` of `server/openai.ts`: a thrown
call is rethrown, and a null/empty `message.content` falls back to the
original statement (`content || originalStatement`). Prompt construction is
elided: it does not affect the result handling. -/
def regenerateStatement (o : ApiOutcome) (originalStatement : String) :
    Except GenError String :=
  match o with
  | .failure => .error .transport
  | .output content => .ok (if content = "" then originalStatement else content)

/-- The `questionLabels` table of `enhancedRegenerateStatement`. -/
def questionLabels : List (String × String) :=
  [("quantitative", "Quantitative Impact"),
   ("leadership", "Leadership Examples"),
   ("strategic", "Strategic Importance"),
   ("specifics", "Specific Details"),
   ("metrics", "Performance Metrics"),
   ("scope", "Scope & Scale")]

/-- `questionLabels[questionId] || questionId`. -/
def labelFor (questionId : String) : String :=
  (questionLabels.lookup questionId).getD questionId

/-- The `answersText` block of `enhancedRegenerateStatement`: non-blank
answers only (`answer.trim()` truthy), rendered as labelled lines joined by
blank lines. -/
def enhancedAnswersText (askBackAnswers : List (String × String)) : String :=
  String.intercalate "\n\n"
    ((askBackAnswers.filter fun p => strTrim p.2 != "").map fun p =>
      "Q (" ++ labelFor p.1 ++ "): " ++ p.2)

def stage1PromptA : String :=
  "Improve this Air Force performance statement using the additional details provided. Maintain ACTION--IMPACT--RESULT structure, allow up to 450 characters, and incorporate ALL the new information to strengthen quantitative impact and leadership details.\n\nOriginal Statement: \""

def stage1PromptB : String :=
  "\"\n\nAdditional Details:\n"

def stage1PromptC : String :=
  "\n\nGenerate the improved statement with ALL user-provided details incorporated:"

def stage1Instructions : String :=
  "You are an expert Air Force performance statement writer. Incorporate ALL user-provided details while maintaining professional military language and ACTION--IMPACT--RESULT structure. Preserve ALL facts, numbers, mission names, and scope exactly as provided by the user."

/-- Stage 1 (merge) request of `enhancedRegenerateStatement`: relaxed
450-character ceiling, original statement plus the non-blank answers block. -/
def stage1Request (originalStatement answersText : String) : GenRequest :=
  { prompt := stage1PromptA ++ originalStatement ++ stage1PromptB ++ answersText ++ stage1PromptC,
    instructions := stage1Instructions }

/-- The style-only critique prompt built inside `enhancedRegenerateStatement`
(`feedbackPrompt` local constant). It is constructed but never passed to any
generation call: the code calls `generateAIFeedback(stage1Result)` instead,
which uses the generic scoring prompt. -/
def enhancedFeedbackPrompt (stage1Result : String) : String :=
  "Analyze this Air Force performance statement for style, clarity, and structure improvements. Focus ONLY on improving readability and professional presentation. DO NOT suggest changing any facts, numbers, mission names, or scope details provided by the user.\n\nStatement to analyze: \"" ++ stage1Result ++ "\"\n\nProvide feedback focusing on:\n- Clarity and readability improvements\n- Professional military language enhancements  \n- ACTION--IMPACT--RESULT structure optimization\n- Character count reduction techniques (target ≤350 chars)\n\nNEVER suggest changing user-provided facts, numbers, or specific details."

def stage3PromptA : String :=
  "Polish this Air Force performance statement using the AI feedback provided. Maintain ACTION--IMPACT--RESULT structure, enforce strict 350 character limit, and preserve ALL user-provided facts and numbers exactly.\n\nCurrent Statement: \""

def stage3PromptB : String :=
  "\"\n\nAI Feedback for Improvement:\n"

def stage3PromptC : String :=
  "\n\nCRITICAL RULES:\n- Preserve ALL facts, numbers, mission names, and scope exactly as written\n- Focus ONLY on style, clarity, and structure improvements\n- Enforce strict ≤350 character limit\n- Maintain professional military language\n\nGenerate the final polished statement:"

def stage3Instructions : String :=
  "You are an expert Air Force performance statement writer specializing in final polish. Preserve ALL user facts while improving style and enforcing the 350-character limit. Never change specific details, numbers, or mission information."

/-- `JSON.stringify(aiFeedback.improvements, null, 2)` spliced into the stage
3 prompt; a missing `improvements` property renders as `undefined`. -/
def improvementsText (aiFeedback : Json) : String :=
  match aiFeedback.getField "improvements" with
  | some v => v.stringify
  | none => "undefined"

/-- Stage 3 (polish) request of `enhancedRegenerateStatement`: strict
350-character ceiling, merged draft plus the critique improvements. -/
def stage3Request (stage1Result : String) (aiFeedback : Json) : GenRequest :=
  { prompt := stage3PromptA ++ stage1Result ++ stage3PromptB ++ improvementsText aiFeedback ++ stage3PromptC,
    instructions := stage3Instructions }

/-- Result record of `enhancedRegenerateStatement`. -/
structure EnhancedResult where
  stage1Result : String
  aiFeedback : Json
  finalResult : String

/-- `enhancedRegenerateStatement(originalStatement, askBackAnswers)`:
stage 1 merge (relaxed ceiling), `generateAIFeedback` on the merged draft,
stage 3 polish (strict ceiling); any thrown error aborts the whole run. The
returned record mirrors `{ stage1Result, aiFeedback, finalResult:
finalResult || stage1Result }`. -/
def enhancedRegenerateStatement (oracle : GenRequest → ApiOutcome)
    (originalStatement : String) (askBackAnswers : List (String × String)) :
    Except GenError EnhancedResult :=
  match gpt5Text (oracle (stage1Request originalStatement (enhancedAnswersText askBackAnswers))) with
  | .error e => .error e
  | .ok stage1Result =>
    match generateAIFeedback oracle stage1Result with
    | .error e => .error e
    | .ok aiFeedback =>
      match gpt5Text (oracle (stage3Request stage1Result aiFeedback)) with
      | .error e => .error e
      | .ok finalResult =>
        .ok { stage1Result := stage1Result, aiFeedback := aiFeedback,
              finalResult := if finalResult = "" then stage1Result else finalResult }

/-! ## Server state and routes

The statement row and (optional) refinement-session row touched by the
refinement routes of `server/routes.ts`, and the route handlers as pure state
transformers. A Drizzle `update ... where id = _` on a missing row matches
nothing, so updates through a missing row are no-ops. -/

/-- The columns of a `statements` row the workflow reads or writes. -/
structure StatementRec where
  content : String
  isCompleted : Bool

/-- The columns of a `refinement_sessions` row the workflow reads or writes
(`currentStep` defaults to 1; `aiFeeds`, `askBackAnswers`, `enhancedSteps`
are nullable jsonb columns). -/
structure SessionRec where
  currentStep : Nat
  aiFeeds : Option Json
  askBackAnswers : Option (List (String × String))
  enhancedSteps : Option EnhancedResult
  isCompleted : Bool

/-- The slice of the store one statement's refinement touches. -/
structure ServerState where
  statement : Option StatementRec
  session : Option SessionRec

/-- HTTP result of a route call. -/
inductive RouteResult (α : Type) where
  | ok (a : α) : RouteResult α
  | notFound : RouteResult α
  | serverError : RouteResult α

/-- POST `/api/refinement/:statementId/feedback`: generate feedback on the
statement content, then set `aiFeeds` and `currentStep := 2` on the session
when one exists. -/
def feedbackRoute (oracle : GenRequest → ApiOutcome) (st : ServerState) :
    ServerState × RouteResult Json :=
  match st.statement with
  | none => (st, .notFound)
  | some stmt =>
    match generateAIFeedback oracle stmt.content with
    | .error _ => (st, .serverError)
    | .ok feedback =>
      ({ st with
         session := st.session.map fun s =>
           { s with aiFeeds := some feedback, currentStep := 2 } },
       .ok feedback)

/-- POST `/api/refinement/:statementId/askbacks`: generate the questions and
return them; the session is not touched. -/
def askbacksRoute (o : ApiOutcome) (st : ServerState) :
    ServerState × RouteResult Json :=
  match st.statement with
  | none => (st, .notFound)
  | some _ =>
    match generateAskBackQuestions o with
    | .error _ => (st, .serverError)
    | .ok askBacks => (st, .ok askBacks)

/-- POST `/api/refinement/:statementId/regenerate`: run the enhanced
two-stage regeneration, write the final result into the statement content,
and store the answers, the intermediate steps, and `currentStep := 4` on the
session when one exists. -/
def regenerateRoute (oracle : GenRequest → ApiOutcome) (st : ServerState)
    (askBackAnswers : List (String × String)) :
    ServerState × RouteResult EnhancedResult :=
  match st.statement with
  | none => (st, .notFound)
  | some stmt =>
    match enhancedRegenerateStatement oracle stmt.content askBackAnswers with
    | .error _ => (st, .serverError)
    | .ok r =>
      ({ statement := some { stmt with content := r.finalResult },
         session := st.session.map fun s =>
           { s with askBackAnswers := some askBackAnswers,
                    enhancedSteps := some r,
                    currentStep := 4 } },
       .ok r)

/-- POST `/api/refinement/:statementId/complete`: unconditionally mark the
statement completed and, when a session exists, set `currentStep := 5` and
mark it completed. No precondition is checked. -/
def completeRoute (st : ServerState) : ServerState × RouteResult Unit :=
  ({ statement := st.statement.map fun stmt => { stmt with isCompleted := true },
     session := st.session.map fun s =>
       { s with currentStep := 5, isCompleted := true } },
   .ok ())

/-! ## Client state machine

`RefinementScreen` holds the step pointer and artifacts in React state; its
event handlers are the transitions. Mutation `onSuccess` payloads are tied to
the server functions that produce them (`result.content` of the regenerate
route is `enhancedResult.finalResult`, the askbacks payload is the
`generateAskBackQuestions` value, the feedback payload is the
`generateAIFeedback` value). -/

/-- The React state of `RefinementScreen`. -/
structure ClientState where
  currentStep : Nat
  originalStatementContent : String
  improvedStatementContent : String
  askBackAnswers : List (Nat × String)
  aiFeedback : Option Json
  askBackQuestions : Option Json
  refinementCount : Nat

/-- Initial screen state once the statement has loaded (`useState` defaults
plus the `useEffect` that copies the statement content). -/
def initialClientState (content : String) : ClientState :=
  { currentStep := 1
    originalStatementContent := content
    improvedStatementContent := ""
    askBackAnswers := []
    aiFeedback := none
    askBackQuestions := none
    refinementCount := 0 }

/-- JavaScript object spread `{ ...prev, [questionIndex]: answer }`: an
existing key keeps its position and gets the new value, a new key is
appended. -/
def upsertAnswer (i : Nat) (text : String) :
    List (Nat × String) → List (Nat × String)
  | [] => [(i, text)]
  | (k, v) :: rest =>
    if k = i then (i, text) :: rest else (k, v) :: upsertAnswer i text rest

/-- `handleAnswerChange`: upsert with no validation of the text. -/
def handleAnswerChange (c : ClientState) (i : Nat) (text : String) : ClientState :=
  { c with askBackAnswers := upsertAnswer i text c.askBackAnswers }

/-- `Object.values(askBackAnswers).filter(answer => answer.trim()).length`. -/
def answeredQuestions (answers : List (Nat × String)) : Nat :=
  (answers.filter fun p => strTrim p.2 != "").length

/-- The Refine Again `onClick`: the improved content becomes the original
slot, the step returns to 2, the loop counter increments, and the answers,
the feedback, and the improved content are cleared. -/
def refineAgain (c : ClientState) : ClientState :=
  { c with originalStatementContent := c.improvedStatementContent
           currentStep := 2
           refinementCount := c.refinementCount + 1
           askBackAnswers := []
           aiFeedback := none
           improvedStatementContent := "" }

/-- The request body of the regenerate call: numeric state keys serialize to
strings. -/
def toServerAnswers (answers : List (Nat × String)) : List (String × String) :=
  answers.map fun p => (toString p.1, p.2)

/-- One client event. Each constructor is an event handler of
`RefinementScreen`, guarded by the rendering/enabled condition of the control
that fires it, with mutation `onSuccess` payloads tied to the server
computation that produces them. -/
inductive ClientStep : ClientState → ClientState → Prop where
  | editOriginal (c : ClientState) (text : String) :
      ClientStep c { c with originalStatementContent := text }
  | answerChange (c : ClientState) (i : Nat) (text : String)
      (hstep : 2 ≤ c.currentStep) (hq : c.askBackQuestions.isSome = true) :
      ClientStep c (handleAnswerChange c i text)
  | askBacksSuccess (c : ClientState) (o : ApiOutcome) (q : Json)
      (hstep : c.currentStep = 1)
      (hgen : generateAskBackQuestions o = .ok q) :
      ClientStep c { c with askBackQuestions := some q, currentStep := 2 }
  | regenerateSuccess (c : ClientState) (oracle : GenRequest → ApiOutcome)
      (orig : String) (r : EnhancedResult)
      (hstep : c.currentStep = 2)
      (hgate : 2 ≤ answeredQuestions c.askBackAnswers)
      (hgen : enhancedRegenerateStatement oracle orig
                (toServerAnswers c.askBackAnswers) = .ok r) :
      ClientStep c { c with improvedStatementContent := r.finalResult, currentStep := 3 }
  | feedbackSuccess (c : ClientState) (oracle : GenRequest → ApiOutcome)
      (content : String) (fb : Json)
      (hstep : c.currentStep = 3)
      (hgen : generateAIFeedback oracle content = .ok fb) :
      ClientStep c { c with aiFeedback := some fb, currentStep := 4 }
  | viewSaveOptions (c : ClientState) (hstep : c.currentStep = 4) :
      ClientStep c { c with currentStep := 5 }
  | refineAgainStep (c : ClientState)
      (hstep : 5 ≤ c.currentStep) (hcap : c.refinementCount < 3) :
      ClientStep c (refineAgain c)
  | saveComplete (c : ClientState)
      (hstep : 5 ≤ c.currentStep) (hcap : c.refinementCount < 3) :
      ClientStep c c

/-- Client states reachable from a freshly loaded screen. -/
inductive ClientReachable : ClientState → Prop where
  | init (content : String) : ClientReachable (initialClientState content)
  | step {c c' : ClientState} :
      ClientReachable c → ClientStep c c' → ClientReachable c'

/-! ## Helper lemmas -/

theorem isPrefixOf_append_of (l₁ l₂ t : List Char)
    (h : l₁.isPrefixOf l₂ = true) : l₁.isPrefixOf (l₂ ++ t) = true := by
  induction l₁ generalizing l₂ with
  | nil => simp [List.isPrefixOf]
  | cons a as ih =>
    cases l₂ with
    | nil => simp [List.isPrefixOf] at h
    | cons b bs =>
      simp only [List.cons_append, List.isPrefixOf, Bool.and_eq_true] at h ⊢
      exact ⟨h.1, ih bs h.2⟩

theorem listHasSub_nil_needle (l : List Char) : listHasSub [] l = true := by
  induction l with
  | nil => rfl
  | cons c rest ih => simp [listHasSub, List.isPrefixOf]

theorem listHasSub_append (needle l t : List Char)
    (h : listHasSub needle l = true) : listHasSub needle (l ++ t) = true := by
  induction l with
  | nil =>
    cases needle with
    | nil => simpa using listHasSub_nil_needle t
    | cons a as => simp [listHasSub, List.isEmpty] at h
  | cons c rest ih =>
    simp only [listHasSub, Bool.or_eq_true] at h
    rcases h with h | h
    · simp only [List.cons_append, listHasSub, Bool.or_eq_true]
      exact Or.inl (isPrefixOf_append_of _ _ _ h)
    · simp only [List.cons_append, listHasSub, Bool.or_eq_true]
      exact Or.inr (ih h)

theorem string_data_append (a b : String) : (a ++ b).data = a.data ++ b.data := by
  cases a; cases b; rfl

theorem hasSubstr_append_left (a b needle : String)
    (h : hasSubstr a needle = true) : hasSubstr (a ++ b) needle = true := by
  unfold hasSubstr at h ⊢
  rw [string_data_append]
  exact listHasSub_append _ _ _ h

theorem gpt5Text_ok_ne_empty (o : ApiOutcome) (t : String)
    (h : gpt5Text o = .ok t) : t ≠ "" := by
  cases o with
  | failure => exact absurd h (by simp [gpt5Text])
  | output s =>
    unfold gpt5Text at h
    by_cases hs : strTrim s = ""
    · simp [hs] at h
    · simp [hs] at h
      subst h
      exact hs

/-- Successful runs of `enhancedRegenerateStatement` decompose into the three
generation steps in data-flow order, and the `finalResult || stage1Result`
fallback is never taken: the stage-3 output is returned and is non-empty. -/
theorem enhanced_ok_spec (oracle : GenRequest → ApiOutcome)
    (orig : String) (ans : List (String × String)) (r : EnhancedResult)
    (h : enhancedRegenerateStatement oracle orig ans = .ok r) :
    gpt5Text (oracle (stage1Request orig (enhancedAnswersText ans))) = .ok r.stage1Result ∧
    generateAIFeedback oracle r.stage1Result = .ok r.aiFeedback ∧
    gpt5Text (oracle (stage3Request r.stage1Result r.aiFeedback)) = .ok r.finalResult ∧
    r.finalResult ≠ "" := by
  unfold enhancedRegenerateStatement at h
  split at h
  · cases h
  next s1 e1 =>
    split at h
    · cases h
    next fb e2 =>
      split at h
      · cases h
      next fin e3 =>
        have hfin : fin ≠ "" := gpt5Text_ok_ne_empty _ _ e3
        rw [if_neg hfin] at h
        cases h
        exact ⟨e1, e2, e3, hfin⟩

theorem upsertAnswer_lookup (i : Nat) (t : String) (ans : List (Nat × String)) :
    (upsertAnswer i t ans).lookup i = some t := by
  induction ans with
  | nil => simp [upsertAnswer, List.lookup]
  | cons p rest ih =>
    obtain ⟨k, v⟩ := p
    unfold upsertAnswer
    by_cases hk : k = i
    · simp [hk, List.lookup]
    · simp only [if_neg hk, List.lookup]
      have : (i == k) = false := by
        simp [Nat.beq_eq_true_eq]
        exact fun h => hk h.symm
      simp [this, ih]

theorem filter_len_cons_le {α : Type} (f : α → Bool) (x : α) (l : List α) :
    (l.filter f).length ≤ ((x :: l).filter f).length := by
  rw [List.filter_cons]
  split
  · exact Nat.le_succ _
  · exact Nat.le_refl _

theorem answeredQuestions_upsert_blank_le (i : Nat) (t : String)
    (ans : List (Nat × String)) (ht : strTrim t = "") :
    answeredQuestions (upsertAnswer i t ans) ≤ answeredQuestions ans := by
  induction ans with
  | nil =>
    simp [upsertAnswer, answeredQuestions, List.filter_cons, ht]
  | cons p rest ih =>
    obtain ⟨k, v⟩ := p
    unfold upsertAnswer
    by_cases hk : k = i
    · rw [if_pos hk]
      unfold answeredQuestions
      rw [List.filter_cons]
      simp only [ht]
      rw [if_neg (by simp)]
      exact filter_len_cons_le _ _ _
    · rw [if_neg hk]
      unfold answeredQuestions at ih ⊢
      rw [List.filter_cons, List.filter_cons]
      by_cases hv : ((fun p => strTrim p.2 != "") (k, v) = true)
      · rw [if_pos hv, if_pos hv]
        exact Nat.succ_le_succ ih
      · rw [if_neg hv, if_neg hv]
        exact ih

/-! ## Concrete fixtures -/

/-- A well-formed JSON feedback payload used as a constant oracle reply. -/
def demoFeedbackJson : String :=
  "\x7b\"score\": 8, \"strengths\": [\"clear\"], \"improvements\": [\"shorten\"]\x7d"

def demoFeedback : Json :=
  .obj [("score", .num 8), ("strengths", .arr [.str "clear"]),
        ("improvements", .arr [.str "shorten"])]

/-- Oracle whose every call returns the demo feedback payload. -/
def demoOracle : GenRequest → ApiOutcome := fun _ => .output demoFeedbackJson

/-- Oracle whose every call throws. -/
def failOracle : GenRequest → ApiOutcome := fun _ => .failure

def demoAnswers : List (String × String) :=
  [("quantitative", "Led 12 personnel"), ("strategic", "saved $40K")]

def demoEnhanced : EnhancedResult :=
  { stage1Result := demoFeedbackJson, aiFeedback := demoFeedback,
    finalResult := demoFeedbackJson }

def stmtFresh : StatementRec :=
  { content := "Led COMSEC overhaul", isCompleted := false }

def sessionFresh : SessionRec :=
  { currentStep := 1, aiFeeds := none, askBackAnswers := none,
    enhancedSteps := none, isCompleted := false }

/-- A freshly created statement with its stage-1 session. -/
def stFresh : ServerState :=
  { statement := some stmtFresh, session := some sessionFresh }

def clientStage2 : ClientState :=
  { currentStep := 2
    originalStatementContent := "Led COMSEC overhaul"
    improvedStatementContent := ""
    askBackAnswers := [(0, "Led 12 personnel"), (2, "saved $40K")]
    aiFeedback := none
    askBackQuestions := some (.obj [("questions", .arr [])])
    refinementCount := 0 }

def clientStage2few : ClientState :=
  { clientStage2 with askBackAnswers := [(0, "Led 12 personnel"), (1, "   ")] }

def clientStage4 : ClientState :=
  { clientStage2 with
      currentStep := 4
      improvedStatementContent := "Polished statement"
      aiFeedback := some demoFeedback }

def clientStage5 : ClientState :=
  { clientStage4 with currentStep := 5 }

theorem enhanced_demo_run :
    enhancedRegenerateStatement demoOracle "Led 5 airmen." demoAnswers = .ok demoEnhanced := by
  rfl

/-! ## Ceiling phrases of the regeneration prompts -/

def relaxedCeilingPhrase : String := "allow up to 450 characters"

def strictCeilingPhrase : String := "enforce strict 350 character limit"

theorem hasSubstr_stage1_relaxed (orig ansText : String) :
    hasSubstr (stage1Request orig ansText).prompt relaxedCeilingPhrase = true := by
  show hasSubstr (stage1PromptA ++ orig ++ stage1PromptB ++ ansText ++ stage1PromptC)
    relaxedCeilingPhrase = true
  apply hasSubstr_append_left
  apply hasSubstr_append_left
  apply hasSubstr_append_left
  apply hasSubstr_append_left
  decide

theorem hasSubstr_stage3_strict (stage1Result : String) (aiFeedback : Json) :
    hasSubstr (stage3Request stage1Result aiFeedback).prompt strictCeilingPhrase = true := by
  show hasSubstr
    (stage3PromptA ++ stage1Result ++ stage3PromptB ++ improvementsText aiFeedback ++ stage3PromptC)
    strictCeilingPhrase = true
  apply hasSubstr_append_left
  apply hasSubstr_append_left
  apply hasSubstr_append_left
  apply hasSubstr_append_left
  decide

/-! ## Claims -/

/-- C1 (amended): every client transition leaves the step unchanged, advances
it by exactly 1, or resets it to exactly 2 via the stage-5 Refine Again
loop-back; the persisted session step, by contrast, is written as fixed
constants by the routes (see the counterexample). -/
theorem C1_client_step_monotone (c c' : ClientState) (h : ClientStep c c') :
    c'.currentStep = c.currentStep ∨
    c'.currentStep = c.currentStep + 1 ∨
    (5 ≤ c.currentStep ∧ c'.currentStep = 2) := by
  cases h with
  | editOriginal text => exact Or.inl rfl
  | answerChange i text hstep hq => exact Or.inl rfl
  | askBacksSuccess o q hstep hgen => exact Or.inr (Or.inl (by simp [hstep]))
  | regenerateSuccess oracle orig r hstep hgate hgen =>
    exact Or.inr (Or.inl (by simp [hstep]))
  | feedbackSuccess oracle content fb hstep hgen =>
    exact Or.inr (Or.inl (by simp [hstep]))
  | viewSaveOptions hstep => exact Or.inr (Or.inl (by simp [hstep]))
  | refineAgainStep hstep hcap => exact Or.inr (Or.inr ⟨hstep, rfl⟩)
  | saveComplete hstep hcap => exact Or.inl rfl

theorem C1_witness :
    ClientStep clientStage4 { clientStage4 with currentStep := 5 } ∧
    (({ clientStage4 with currentStep := 5 } : ClientState).currentStep = clientStage4.currentStep ∨
     ({ clientStage4 with currentStep := 5 } : ClientState).currentStep = clientStage4.currentStep + 1 ∨
     (5 ≤ clientStage4.currentStep ∧
      ({ clientStage4 with currentStep := 5 } : ClientState).currentStep = 2)) :=
  ⟨ClientStep.viewSaveOptions clientStage4 rfl,
   C1_client_step_monotone _ _ (ClientStep.viewSaveOptions clientStage4 rfl)⟩

/-- C1 (counterexample): the persisted session of a fresh statement is at step
1; one successful regenerate call writes step 4 (a jump of +3), and a
following feedback call writes step 2 (a decrease that is not the stage-5
loop-back). -/
theorem C1_counterexample :
    sessionFresh.currentStep = 1 ∧
    ((regenerateRoute demoOracle stFresh demoAnswers).1.session.map
        SessionRec.currentStep = some 4) ∧
    ((feedbackRoute demoOracle
        (regenerateRoute demoOracle stFresh demoAnswers).1).1.session.map
        SessionRec.currentStep = some 2) ∧
    4 ≠ 1 + 1 ∧ ¬ (1 = 5 ∧ 4 = 2) ∧ 2 ≠ 4 + 1 ∧ ¬ (4 = 5 ∧ 2 = 2) :=
  ⟨rfl, rfl, rfl, by decide, by decide, by decide, by decide⟩

/-- C2: at step 2 with fewer than 2 non-blank answers every enabled client
transition leaves the step at 2 (the advance to regeneration is refused);
`handleAnswerChange` upserts any text verbatim, and a blank answer never
raises the non-blank count used by the gate. -/
theorem C2_stage2_gating (c c' : ClientState) (i : Nat) (t : String)
    (ans : List (Nat × String)) :
    (c.currentStep = 2 → answeredQuestions c.askBackAnswers < 2 →
      ClientStep c c' → c'.currentStep = 2) ∧
    ((upsertAnswer i t ans).lookup i = some t) ∧
    (strTrim t = "" → answeredQuestions (upsertAnswer i t ans) ≤ answeredQuestions ans) := by
  refine ⟨?_, upsertAnswer_lookup i t ans,
    fun ht => answeredQuestions_upsert_blank_le i t ans ht⟩
  intro hstep hcount hcs
  cases hcs with
  | editOriginal text => exact hstep
  | answerChange i2 t2 h1 h2 => exact hstep
  | askBacksSuccess o q h1 h2 => exact absurd (hstep.symm.trans h1) (by decide)
  | regenerateSuccess oracle orig r h1 hgate hgen => exact absurd hgate (by omega)
  | feedbackSuccess oracle content fb h1 h2 =>
    exact absurd (hstep.symm.trans h1) (by decide)
  | viewSaveOptions h1 => exact absurd (hstep.symm.trans h1) (by decide)
  | refineAgainStep h1 hcap => exact absurd (hstep ▸ h1) (by decide)
  | saveComplete h1 hcap => exact absurd (hstep ▸ h1) (by decide)

theorem C2_witness :
    clientStage2few.currentStep = 2 ∧
    answeredQuestions clientStage2few.askBackAnswers < 2 ∧
    ClientStep clientStage2few
      { clientStage2few with originalStatementContent := "edited" } ∧
    ({ clientStage2few with originalStatementContent := "edited" } : ClientState).currentStep = 2 ∧
    (upsertAnswer 1 "   " [(0, "Led 12 personnel")]).lookup 1 = some "   " ∧
    strTrim "   " = "" ∧
    answeredQuestions (upsertAnswer 1 "   " [(0, "Led 12 personnel")]) ≤
      answeredQuestions [(0, "Led 12 personnel")] := by
  have h := C2_stage2_gating clientStage2few
    { clientStage2few with originalStatementContent := "edited" } 1 "   "
    [(0, "Led 12 personnel")]
  have hcs : ClientStep clientStage2few
      { clientStage2few with originalStatementContent := "edited" } :=
    ClientStep.editOriginal _ _
  exact ⟨rfl, by decide, hcs, h.1 rfl (by decide) hcs, h.2.1, by decide, h.2.2 (by decide)⟩

/-- C3: a failed generation call leaves the server state byte-for-byte
unchanged: the askbacks route never writes, and the feedback and regenerate
routes return 500 before any statement or session write when their generation
call fails, so the same transition can be retried. -/
theorem C3_generation_failure_atomic (oracle : GenRequest → ApiOutcome)
    (o : ApiOutcome) (st : ServerState) (answers : List (String × String))
    (stmt : StatementRec) :
    ((askbacksRoute o st).1 = st) ∧
    (st.statement = some stmt →
      ((∃ e, generateAIFeedback oracle stmt.content = .error e) →
        (feedbackRoute oracle st).1 = st) ∧
      ((∃ e, enhancedRegenerateStatement oracle stmt.content answers = .error e) →
        (regenerateRoute oracle st answers).1 = st)) := by
  constructor
  · unfold askbacksRoute
    cases hs : st.statement with
    | none => rfl
    | some stmt2 =>
      cases hq : generateAskBackQuestions o with
      | error e => rfl
      | ok q => rfl
  · intro hst
    constructor
    · rintro ⟨e, he⟩
      unfold feedbackRoute
      rw [hst]
      dsimp only
      rw [he]
    · rintro ⟨e, he⟩
      unfold regenerateRoute
      rw [hst]
      dsimp only
      rw [he]

theorem C3_witness :
    stFresh.statement = some stmtFresh ∧
    generateAIFeedback failOracle stmtFresh.content = .error .transport ∧
    enhancedRegenerateStatement failOracle stmtFresh.content demoAnswers = .error .transport ∧
    (askbacksRoute .failure stFresh).1 = stFresh ∧
    (feedbackRoute failOracle stFresh).1 = stFresh ∧
    (regenerateRoute failOracle stFresh demoAnswers).1 = stFresh := by
  have h := C3_generation_failure_atomic failOracle .failure stFresh demoAnswers stmtFresh
  exact ⟨rfl, rfl, rfl, h.1, (h.2 rfl).1 ⟨.transport, rfl⟩, (h.2 rfl).2 ⟨.transport, rfl⟩⟩

/-- C4 (amended): a successful regeneration performs the three generation
steps in data-flow order — (a) merge of the non-blank answers into the
statement content under the relaxed 450-character prompt, (b) a structured
critique of the merged draft through `generateAIFeedback` (the generic
scoring prompt; the style-only restriction exists only in an unused local
prompt), (c) polish of the merged draft with the critique improvements under
the strict 350-character prompt — and the route persists the answers, the
intermediate steps and step 4 on the session, with the polished result
becoming the statement content. -/
theorem C4_pipeline (oracle : GenRequest → ApiOutcome) (st : ServerState)
    (stmt : StatementRec) (answers : List (String × String)) (r : EnhancedResult)
    (hst : st.statement = some stmt)
    (hok : enhancedRegenerateStatement oracle stmt.content answers = .ok r) :
    gpt5Text (oracle (stage1Request stmt.content (enhancedAnswersText answers))) = .ok r.stage1Result ∧
    generateAIFeedback oracle r.stage1Result = .ok r.aiFeedback ∧
    gpt5Text (oracle (stage3Request r.stage1Result r.aiFeedback)) = .ok r.finalResult ∧
    hasSubstr (stage1Request stmt.content (enhancedAnswersText answers)).prompt
      relaxedCeilingPhrase = true ∧
    hasSubstr (stage3Request r.stage1Result r.aiFeedback).prompt
      strictCeilingPhrase = true ∧
    regenerateRoute oracle st answers =
      ({ statement := some { stmt with content := r.finalResult },
         session := st.session.map fun s =>
           { s with askBackAnswers := some answers,
                    enhancedSteps := some r,
                    currentStep := 4 } }, .ok r) := by
  obtain ⟨h1, h2, h3, hne⟩ := enhanced_ok_spec oracle stmt.content answers r hok
  refine ⟨h1, h2, h3, hasSubstr_stage1_relaxed _ _, hasSubstr_stage3_strict _ _, ?_⟩
  unfold regenerateRoute
  rw [hst]
  dsimp only
  rw [hok]

theorem C4_witness :
    stFresh.statement = some stmtFresh ∧
    enhancedRegenerateStatement demoOracle stmtFresh.content demoAnswers = .ok demoEnhanced ∧
    (gpt5Text (demoOracle (stage1Request stmtFresh.content (enhancedAnswersText demoAnswers))) =
        .ok demoEnhanced.stage1Result ∧
     generateAIFeedback demoOracle demoEnhanced.stage1Result = .ok demoEnhanced.aiFeedback ∧
     gpt5Text (demoOracle (stage3Request demoEnhanced.stage1Result demoEnhanced.aiFeedback)) =
        .ok demoEnhanced.finalResult ∧
     hasSubstr (stage1Request stmtFresh.content (enhancedAnswersText demoAnswers)).prompt
        relaxedCeilingPhrase = true ∧
     hasSubstr (stage3Request demoEnhanced.stage1Result demoEnhanced.aiFeedback).prompt
        strictCeilingPhrase = true ∧
     regenerateRoute demoOracle stFresh demoAnswers =
       ({ statement := some { stmtFresh with content := demoEnhanced.finalResult },
          session := stFresh.session.map fun s =>
            { s with askBackAnswers := some demoAnswers,
                     enhancedSteps := some demoEnhanced,
                     currentStep := 4 } }, .ok demoEnhanced)) :=
  ⟨rfl, rfl, C4_pipeline demoOracle stFresh stmtFresh demoAnswers demoEnhanced rfl rfl⟩

/-- The marker phrase of the style-only critique prompt that
`enhancedRegenerateStatement` builds but never sends. -/
def styleOnlyMarker : String := "Focus ONLY on improving readability"

/-- Oracle that fails every generation call whose prompt or instructions
carry the style-only restriction marker. -/
def styleBanOracle : GenRequest → ApiOutcome := fun req =>
  if hasSubstr req.prompt styleOnlyMarker || hasSubstr req.instructions styleOnlyMarker then
    .failure
  else .output demoFeedbackJson

set_option maxRecDepth 10000 in
/-- C4 (counterexample): a full regeneration run succeeds even when every
call carrying the style-only restriction would fail — so the critique of step
(b) is not the style-only critique the claim describes: that restriction
appears only in the unused local prompt, not in the issued request. -/
theorem C4_counterexample :
    enhancedRegenerateStatement styleBanOracle "Led 5 airmen." demoAnswers = .ok demoEnhanced ∧
    hasSubstr (enhancedFeedbackPrompt demoEnhanced.stage1Result) styleOnlyMarker = true ∧
    hasSubstr (feedbackRequest demoEnhanced.stage1Result).prompt styleOnlyMarker = false ∧
    hasSubstr (feedbackRequest demoEnhanced.stage1Result).instructions styleOnlyMarker = false :=
  ⟨rfl, rfl, rfl, rfl⟩

/-- C5: the Refine Again loop-back at step 5 clears the answers, the
feedback, and the improved-draft slot (the post-answer/polished artifact
shown in the comparison), copies the previous polished content into the
original-draft slot, keeps the questions, increments the loop counter, and
sets the step to exactly 2. -/
theorem C5_loopback (c : ClientState)
    (hstep : c.currentStep = 5) (hcap : c.refinementCount < 3) :
    ClientStep c (refineAgain c) ∧
    (refineAgain c).askBackAnswers = [] ∧
    (refineAgain c).aiFeedback = none ∧
    (refineAgain c).improvedStatementContent = "" ∧
    (refineAgain c).originalStatementContent = c.improvedStatementContent ∧
    (refineAgain c).askBackQuestions = c.askBackQuestions ∧
    (refineAgain c).refinementCount = c.refinementCount + 1 ∧
    (refineAgain c).currentStep = 2 :=
  ⟨ClientStep.refineAgainStep c (by omega) hcap, rfl, rfl, rfl, rfl, rfl, rfl, rfl⟩

theorem C5_witness :
    clientStage5.currentStep = 5 ∧
    clientStage5.refinementCount < 3 ∧
    (ClientStep clientStage5 (refineAgain clientStage5) ∧
     (refineAgain clientStage5).askBackAnswers = [] ∧
     (refineAgain clientStage5).aiFeedback = none ∧
     (refineAgain clientStage5).improvedStatementContent = "" ∧
     (refineAgain clientStage5).originalStatementContent = clientStage5.improvedStatementContent ∧
     (refineAgain clientStage5).askBackQuestions = clientStage5.askBackQuestions ∧
     (refineAgain clientStage5).refinementCount = clientStage5.refinementCount + 1 ∧
     (refineAgain clientStage5).currentStep = 2) :=
  ⟨rfl, by decide, C5_loopback clientStage5 rfl (by decide)⟩

/-- C6 (amended): the question generation treats a thrown call, blank output,
and unparseable output as failures, but a parseable JSON value is returned
exactly as parsed — the 3-question shape is never validated locally (it is
delegated to the strict schema the external API enforces). -/
theorem C6_output_guards (s : String) (v : Json) :
    (generateAskBackQuestions .failure = .error .transport) ∧
    (strTrim s = "" → generateAskBackQuestions (.output s) = .error .emptyOutput) ∧
    (strTrim s ≠ "" → jsonParse (strTrim s) = none →
      generateAskBackQuestions (.output s) = .error .parseFailed) ∧
    (strTrim s ≠ "" → jsonParse (strTrim s) = some v →
      generateAskBackQuestions (.output s) = .ok v) := by
  refine ⟨rfl, ?_, ?_, ?_⟩
  · intro h
    simp [generateAskBackQuestions, gpt5Text, h]
  · intro h hp
    simp [generateAskBackQuestions, gpt5Text, h, hp]
  · intro h hp
    simp [generateAskBackQuestions, gpt5Text, h, hp]

theorem C6_witness :
    strTrim "   " = "" ∧
    generateAskBackQuestions (.output "   ") = .error .emptyOutput ∧
    strTrim "not json" ≠ "" ∧
    jsonParse (strTrim "not json") = none ∧
    generateAskBackQuestions (.output "not json") = .error .parseFailed ∧
    strTrim demoFeedbackJson ≠ "" ∧
    jsonParse (strTrim demoFeedbackJson) = some demoFeedback ∧
    generateAskBackQuestions (.output demoFeedbackJson) = .ok demoFeedback :=
  ⟨by decide, (C6_output_guards "   " demoFeedback).2.1 (by decide),
   by decide, rfl,
   (C6_output_guards "not json" demoFeedback).2.2.1 (by decide) rfl,
   by decide, rfl,
   (C6_output_guards demoFeedbackJson demoFeedback).2.2.2 (by decide) rfl⟩

/-- C6 (counterexample): a parseable reply with zero questions — malformed
with respect to the 3-question schema — is returned as a success, not a
generation failure. -/
theorem C6_counterexample :
    generateAskBackQuestions (.output "\x7b\"questions\":[]\x7d") =
      .ok (.obj [("questions", .arr [])]) ∧
    questionsSchemaOk (.obj [("questions", .arr [])]) = false :=
  ⟨rfl, rfl⟩

/-- The client-side stage/artifact consistency invariant: the step stays in
1..5, the questions are present from step 2 on, the improved draft from step
3 on, and the feedback from step 4 on. -/
def clientInv (c : ClientState) : Prop :=
  1 ≤ c.currentStep ∧ c.currentStep ≤ 5 ∧
  (2 ≤ c.currentStep → c.askBackQuestions.isSome = true) ∧
  (3 ≤ c.currentStep → c.improvedStatementContent ≠ "") ∧
  (4 ≤ c.currentStep → c.aiFeedback.isSome = true)

/-- C7 (amended): every reachable client state satisfies the stage/artifact
consistency invariant; the persisted session does not (see the
counterexample). -/
theorem C7_client_invariant (c : ClientState) (h : ClientReachable c) :
    clientInv c := by
  induction h with
  | init content =>
    exact ⟨(by decide : (1:Nat) ≤ 1), (by decide : (1:Nat) ≤ 5),
      fun h2 => absurd h2 (by decide : ¬ (2:Nat) ≤ 1),
      fun h3 => absurd h3 (by decide : ¬ (3:Nat) ≤ 1),
      fun h4 => absurd h4 (by decide : ¬ (4:Nat) ≤ 1)⟩
  | step hr hs ih =>
    obtain ⟨ih1, ih2, ihq, ihi, ihf⟩ := ih
    cases hs with
    | editOriginal text => exact ⟨ih1, ih2, ihq, ihi, ihf⟩
    | answerChange i text h1 h2 => exact ⟨ih1, ih2, ihq, ihi, ihf⟩
    | askBacksSuccess o q h1 h2 =>
      refine ⟨(by decide : (1:Nat) ≤ 2), (by decide : (2:Nat) ≤ 5), fun _ => rfl, ?_, ?_⟩
      · intro h3; exact absurd h3 (by decide : ¬ (3:Nat) ≤ 2)
      · intro h4; exact absurd h4 (by decide : ¬ (4:Nat) ≤ 2)
    | regenerateSuccess oracle orig r h1 hgate hgen =>
      have hne : r.finalResult ≠ "" := (enhanced_ok_spec _ _ _ _ hgen).2.2.2
      refine ⟨(by decide : (1:Nat) ≤ 3), (by decide : (3:Nat) ≤ 5), ?_, fun _ => hne, ?_⟩
      · intro _; exact ihq (by omega)
      · intro h4; exact absurd h4 (by decide : ¬ (4:Nat) ≤ 3)
    | feedbackSuccess oracle content fb h1 h2 =>
      refine ⟨(by decide : (1:Nat) ≤ 4), (by decide : (4:Nat) ≤ 5), ?_, ?_, fun _ => rfl⟩
      · intro _; exact ihq (by omega)
      · intro _; exact ihi (by omega)
    | viewSaveOptions h1 =>
      refine ⟨(by decide : (1:Nat) ≤ 5), (by decide : (5:Nat) ≤ 5), ?_, ?_, ?_⟩
      · intro _; exact ihq (by omega)
      · intro _; exact ihi (by omega)
      · intro _; exact ihf (by omega)
    | refineAgainStep h1 hcap =>
      refine ⟨(by decide : (1:Nat) ≤ 2), (by decide : (2:Nat) ≤ 5), ?_, ?_, ?_⟩
      · intro _; exact ihq (by omega)
      · intro h3; exact absurd h3 (by decide : ¬ (3:Nat) ≤ 2)
      · intro h4; exact absurd h4 (by decide : ¬ (4:Nat) ≤ 2)
    | saveComplete h1 hcap => exact ⟨ih1, ih2, ihq, ihi, ihf⟩

theorem C7_witness :
    ClientReachable (initialClientState "Led COMSEC overhaul") ∧
    clientInv (initialClientState "Led COMSEC overhaul") :=
  ⟨ClientReachable.init "Led COMSEC overhaul",
   C7_client_invariant _ (ClientReachable.init "Led COMSEC overhaul")⟩

/-- C7 (counterexample): after one successful regenerate call on a fresh
statement, the persisted session sits at step 4 while its feedback artifact —
populated by the stage below 4 — is still null (and the session schema has no
questions column at all). -/
theorem C7_counterexample :
    ((regenerateRoute demoOracle stFresh demoAnswers).1.session.map
        SessionRec.currentStep = some 4) ∧
    ((regenerateRoute demoOracle stFresh demoAnswers).1.session.map
        SessionRec.aiFeeds = some none) :=
  ⟨rfl, rfl⟩

/-- C8 (amended): completing at stage 5 marks both the statement and the
session completed (with step 5), but a subsequent Refine Again is not
rejected: the loop-back handler remains enabled and unconditionally resets
the client step to 2. -/
theorem C8_complete_then_loopback (st : ServerState) (stmt : StatementRec)
    (s : SessionRec) (c : ClientState)
    (hst : st.statement = some stmt) (hs : st.session = some s)
    (hc5 : 5 ≤ c.currentStep) (hcap : c.refinementCount < 3) :
    (completeRoute st).1.statement = some { stmt with isCompleted := true } ∧
    (completeRoute st).1.session = some { s with currentStep := 5, isCompleted := true } ∧
    ClientStep c (refineAgain c) ∧
    (refineAgain c).currentStep = 2 := by
  unfold completeRoute
  rw [hst, hs]
  exact ⟨rfl, rfl, ClientStep.refineAgainStep c hc5 hcap, rfl⟩

theorem C8_witness :
    stFresh.statement = some stmtFresh ∧
    stFresh.session = some sessionFresh ∧
    5 ≤ clientStage5.currentStep ∧
    clientStage5.refinementCount < 3 ∧
    ((completeRoute stFresh).1.statement = some { stmtFresh with isCompleted := true } ∧
     (completeRoute stFresh).1.session =
       some { sessionFresh with currentStep := 5, isCompleted := true } ∧
     ClientStep clientStage5 (refineAgain clientStage5) ∧
     (refineAgain clientStage5).currentStep = 2) :=
  ⟨rfl, rfl, by decide, by decide,
   C8_complete_then_loopback stFresh stmtFresh sessionFresh clientStage5 rfl rfl
     (by decide) (by decide)⟩

/-- C8 (counterexample): after completing a stage-5 session (both completed
flags set), the Refine Again loop-back still fires and lands on step 2 — it
does not fail. -/
theorem C8_counterexample :
    ((completeRoute stFresh).1.statement.map StatementRec.isCompleted = some true) ∧
    ((completeRoute stFresh).1.session.map SessionRec.isCompleted = some true) ∧
    ClientStep clientStage5 (refineAgain clientStage5) ∧
    (refineAgain clientStage5).currentStep = 2 :=
  ⟨rfl, rfl, ClientStep.refineAgainStep clientStage5 (by decide) (by decide), rfl⟩

/-- C9: the complete route has no stage precondition — for any existing
statement it succeeds, marks the statement completed, and when a session
exists (at any step, including 1) forces its step to 5 and marks it
completed. -/
theorem C9_complete_no_precondition (st : ServerState) (stmt : StatementRec)
    (hst : st.statement = some stmt) :
    (completeRoute st).2 = .ok () ∧
    (completeRoute st).1.statement = some { stmt with isCompleted := true } ∧
    (∀ s : SessionRec, st.session = some s →
      (completeRoute st).1.session = some { s with currentStep := 5, isCompleted := true }) := by
  refine ⟨rfl, ?_, ?_⟩
  · unfold completeRoute
    rw [hst]
    exact rfl
  · intro s hs
    unfold completeRoute
    rw [hs]
    exact rfl

theorem C9_witness :
    stFresh.statement = some stmtFresh ∧
    stFresh.session = some sessionFresh ∧
    sessionFresh.currentStep = 1 ∧
    ((completeRoute stFresh).2 = .ok () ∧
     (completeRoute stFresh).1.statement = some { stmtFresh with isCompleted := true } ∧
     (∀ s : SessionRec, stFresh.session = some s →
       (completeRoute stFresh).1.session =
         some { s with currentStep := 5, isCompleted := true })) :=
  ⟨rfl, rfl, rfl, C9_complete_no_precondition stFresh stmtFresh rfl⟩

/-- C10 (amended): the chat-completions `regenerateStatement` indeed turns an
empty reply into the unchanged original statement without error; but in
`enhancedRegenerateStatement` the `finalResult || stage1Result` fallback is
unreachable — `gpt5Text` rejects empty output, so a successful run always
returns the (non-empty) polish output and an empty polish reply surfaces as a
generation failure (see the counterexample). -/
theorem C10_empty_output (orig : String) (oracle : GenRequest → ApiOutcome)
    (ans : List (String × String)) (r : EnhancedResult) :
    (regenerateStatement (.output "") orig = .ok orig) ∧
    (enhancedRegenerateStatement oracle orig ans = .ok r →
      r.finalResult ≠ "" ∧
      gpt5Text (oracle (stage3Request r.stage1Result r.aiFeedback)) = .ok r.finalResult) := by
  refine ⟨rfl, fun h => ?_⟩
  obtain ⟨_, _, h3, hne⟩ := enhanced_ok_spec oracle orig ans r h
  exact ⟨hne, h3⟩

theorem C10_witness :
    regenerateStatement (.output "") "Led 5 airmen." = .ok "Led 5 airmen." ∧
    enhancedRegenerateStatement demoOracle "Led 5 airmen." demoAnswers = .ok demoEnhanced ∧
    (demoEnhanced.finalResult ≠ "" ∧
     gpt5Text (demoOracle (stage3Request demoEnhanced.stage1Result demoEnhanced.aiFeedback)) =
       .ok demoEnhanced.finalResult) :=
  ⟨(C10_empty_output "Led 5 airmen." demoOracle demoAnswers demoEnhanced).1, rfl,
   (C10_empty_output "Led 5 airmen." demoOracle demoAnswers demoEnhanced).2 rfl⟩

/-- Oracle that answers the polish request with empty text and every other
request with the demo feedback payload. -/
def emptyPolishOracle : GenRequest → ApiOutcome := fun req =>
  if req.instructions = stage3Instructions then .output "" else .output demoFeedbackJson

set_option maxRecDepth 10000 in
/-- C10 (counterexample): when the polish step returns empty output the
enhanced regeneration does not fall back to the stage-1 merged draft — it
fails with the empty-output generation error. -/
theorem C10_counterexample :
    enhancedRegenerateStatement emptyPolishOracle "Led 5 airmen." demoAnswers =
      .error .emptyOutput :=
  rfl
